import Mathlib

/-!
Shallow embedding of the authentication and session-management core of the
freight-server repository.

The definitions below are translated from:
- src/Models/FailedLogin.ts (AuthService: authenticateUser, refreshAccessToken,
  resetUserPassword, updatePassword)
- src/services/session.ts (SessionService: generateAccessToken,
  generateRefreshToken, verifyRefreshToken, removeRefreshToken,
  storeRefreshTokenInDb, removeExpiredSessions)
- src/utils/limiter.ts (rateLimiter middleware)
- src/utils/password.ts (comparePasswords)
- src/errors/* (error classes: AuthenticationError 401, ValidationError 400,
  InternalError 500, ManyRequests 429)

Mongoose collections are modelled as Lean lists of records; `findOne`,
`findOneAndUpdate` and `findOneAndRemove` act on the first matching element.
Timestamps are naturals (milliseconds since epoch).  The bcrypt comparison
and hashing primitives are external library calls and are passed in as
function parameters.  JWT signing is modelled as an injective packaging of
(payload, secret, issued-at, expiry); jsonwebtoken records iat/exp in whole
seconds, hence the divisions by 1000.
-/

namespace FreightServer

/-- Error classes from src/errors: each subclass of CustomError fixes an HTTP
status.  AuthenticationError is 401, ValidationError is 400, InternalError is
500, ManyRequests is 429. -/
inductive ErrKind where
  | authentication
  | validation
  | internal
  | manyRequests
deriving Repr, DecidableEq

/-- The error message strings thrown by the core, one constructor per distinct
source string:
- invalidCredentials: "Invalid username or password."
- lockedRemaining r: the dynamic lock message built from the remaining lock
  time r in milliseconds ("Account is locked. Try again after {h} hours"
  where h is r converted to hours)
- lockedThreshold: "Account is locked. Try again after 24 hours --->"
  (the static message thrown when the failure that just happened reached
  MAX_LOGIN_ATTEMPTS)
- cookieMustBeProvided: "Cookie must be provided." (and the misspelled
  "Cookie muse be provided." in refreshAccessToken)
- memberNotFound: "Member not found."
- passwordsDoNotMatch: "Passwords do not match."
- tokenNotFoundInDb: "Token not found in the database."
- refreshTokenNotFoundInDb: "Refresh token not found in the database."
- userNotFoundInDb: "User not found in the database."
- failedRetrieveProfile: "Failed to retrieve member profile."
- jwtInvalidOrExpired: the raw jsonwebtoken verification exception
- accountLockedTryLater: "Account is locked. try again later." (rate limiter)
-/
inductive ErrMsg where
  | invalidCredentials
  | lockedRemaining (remainingMs : Nat)
  | lockedThreshold
  | cookieMustBeProvided
  | memberNotFound
  | passwordsDoNotMatch
  | tokenNotFoundInDb
  | refreshTokenNotFoundInDb
  | userNotFoundInDb
  | failedRetrieveProfile
  | jwtInvalidOrExpired
  | accountLockedTryLater
deriving Repr, DecidableEq

/-- A thrown application error: its class (HTTP status) and message. -/
structure AppError where
  kind : ErrKind
  msg : ErrMsg
deriving Repr, DecidableEq

instance {ε α : Type} [DecidableEq ε] [DecidableEq α] :
    DecidableEq (Except ε α) := fun a b =>
  match a, b with
  | Except.ok x, Except.ok y =>
    if h : x = y then Decidable.isTrue (congrArg Except.ok h)
    else Decidable.isFalse (fun hc => h (Except.ok.inj hc))
  | Except.error x, Except.error y =>
    if h : x = y then Decidable.isTrue (congrArg Except.error h)
    else Decidable.isFalse (fun hc => h (Except.error.inj hc))
  | Except.ok _, Except.error _ =>
    Decidable.isFalse (fun hc => Except.noConfusion hc)
  | Except.error _, Except.ok _ =>
    Decidable.isFalse (fun hc => Except.noConfusion hc)

/-- User record (src/Models/User.ts / IUser).  `password` holds the stored
bcrypt hash; `lastFailedLoginDate` is nullable (none models null).  The
Mongo `_id` is modelled as a Nat `id`. -/
structure User where
  id : Nat
  username : String
  password : String
  resetPassword : Bool
  role : String
  failedLoginAttempts : Nat
  accountLocked : Bool
  lastFailedLoginDate : Option Nat
deriving Repr, DecidableEq

/-- The two independent signing secrets (ACCESS_TOKEN_SECRET /
REFRESH_TOKEN_SECRET from the server configuration). -/
inductive Secret where
  | access
  | refresh
deriving Repr, DecidableEq

/-- Token payload (SessionService.generateUserPayload): `{ _id, username,
resetPassword, role }`. -/
structure TokenPayload where
  id : Nat
  username : String
  resetPassword : Bool
  role : String
deriving Repr, DecidableEq

/-- A signed JWT, modelled as the data determining the signed string: the
payload, the secret used, and the iat/exp claims in whole seconds that
jsonwebtoken embeds.  HS256 signing is deterministic, so distinct structures
correspond to distinct token strings and vice versa. -/
structure SignedToken where
  payload : TokenPayload
  secret : Secret
  iat : Nat
  exp : Nat
deriving Repr, DecidableEq

/-- Token lifetimes (ACCESS_TOKEN_EXPIRE / REFRESH_TOKEN_EXPIRE, seconds). -/
structure TokenConfig where
  accessExpire : Nat
  refreshExpire : Nat
deriving Repr, DecidableEq

/-- SessionService.generateUserPayload: extracts `{ _id, username,
resetPassword, role }` from the user. -/
def generateUserPayload (u : User) : TokenPayload :=
  { id := u.id, username := u.username, resetPassword := u.resetPassword,
    role := u.role }

/-- SessionService.generateAccessToken: sign the payload with the access
secret and the access expiration; `now` is in milliseconds, jwt stores
iat/exp in seconds. -/
def generateAccessToken (cfg : TokenConfig) (u : User) (now : Nat) :
    SignedToken :=
  { payload := generateUserPayload u, secret := Secret.access,
    iat := now / 1000, exp := now / 1000 + cfg.accessExpire }

/-- SessionService.generateRefreshToken: sign the payload with the refresh
secret and the refresh expiration. -/
def generateRefreshToken (cfg : TokenConfig) (u : User) (now : Nat) :
    SignedToken :=
  { payload := generateUserPayload u, secret := Secret.refresh,
    iat := now / 1000, exp := now / 1000 + cfg.refreshExpire }

/-- jwt.verify: succeeds and returns the decoded payload when the token was
signed with the expected secret and its exp claim is still in the future;
otherwise throws (modelled as the raw jsonwebtoken error). -/
def jwtVerify (t : SignedToken) (s : Secret) (now : Nat) :
    Except AppError TokenPayload :=
  if t.secret = s ∧ now / 1000 < t.exp then Except.ok t.payload
  else Except.error ⟨ErrKind.internal, ErrMsg.jwtInvalidOrExpired⟩

/-- Session record (src/Models/Session.ts / ISession). -/
structure Session where
  refreshToken : SignedToken
  userId : Nat
  lastLogin : Nat
deriving Repr, DecidableEq

/-- Session.findOne({ refreshToken }): first row whose token matches. -/
def findSessionByToken (t : SignedToken) : List Session → Option Session
  | [] => none
  | s :: ss =>
    if s.refreshToken = t then some s else findSessionByToken t ss

/-- SessionService.storeRefreshTokenInDb: findOneAndUpdate({ userId },
{ refreshToken, lastLogin }, { upsert: true }): overwrite the first row for
this user, or insert a fresh row when none exists.  (With upsert the write
always returns a row, so the InternalError guard in the source cannot
fire.) -/
def storeRefreshTokenInDb (rt : SignedToken) (uid : Nat) (now : Nat) :
    List Session → List Session
  | [] => [⟨rt, uid, now⟩]
  | s :: ss =>
    if s.userId = uid then ⟨rt, uid, now⟩ :: ss
    else s :: storeRefreshTokenInDb rt uid now ss

/-- SessionService.removeRefreshToken: findOneAndRemove({ refreshToken:
cookie }); throws InternalError "Refresh token not found in the database."
when no row matches, otherwise removes the first matching row and yields its
userId. -/
def removeRefreshToken (cookie : SignedToken) :
    List Session → Except AppError (Nat × List Session)
  | [] => Except.error ⟨ErrKind.internal, ErrMsg.refreshTokenNotFoundInDb⟩
  | s :: ss =>
    if s.refreshToken = cookie then Except.ok (s.userId, ss)
    else
      match removeRefreshToken cookie ss with
      | Except.ok (uid, ss') => Except.ok (uid, s :: ss')
      | Except.error e => Except.error e

/-- SessionService.verifyRefreshToken: first looks the token up in the
session collection and throws InternalError "Token not found in the
database." when absent; only then verifies the signature and expiry. -/
def verifyRefreshToken (db : List Session) (rt : SignedToken) (now : Nat) :
    Except AppError TokenPayload :=
  match findSessionByToken rt db with
  | none => Except.error ⟨ErrKind.internal, ErrMsg.tokenNotFoundInDb⟩
  | some _ => jwtVerify rt Secret.refresh now

/-- SessionService.removeExpiredSessions: deleteMany({ lastLogin:
{ $lte: expirationDate } }). -/
def removeExpiredSessions (cutoff : Nat) (db : List Session) : List Session :=
  db.filter fun s => decide (cutoff < s.lastLogin)

/-- MAX_LOGIN_ATTEMPTS in src/Models/FailedLogin.ts. -/
def MAX_LOGIN_ATTEMPTS : Nat := 5

/-- LOCK_DURATION_MS in src/Models/FailedLogin.ts: 1 * 60 * 1000 (one
minute; the 24-hour constant is commented out in the source). -/
def LOCK_DURATION_MS : Nat := 1 * 60 * 1000

/-- The mutable persistent state the AuthService acts on: the User
collection and the Session collection. -/
structure AuthState where
  users : List User
  sessions : List Session
deriving Repr, DecidableEq

/-- User.findOne({ username }): first user with this username. -/
def findUserByName (username : String) : List User → Option User
  | [] => none
  | u :: us =>
    if u.username = username then some u else findUserByName username us

/-- User.findById: first user with this id. -/
def findUserById (uid : Nat) : List User → Option User
  | [] => none
  | u :: us => if u.id = uid then some u else findUserById uid us

/-- user.save(): persist the in-memory document back into the collection,
replacing every stored row carrying its id. -/
def saveUser (u : User) (users : List User) : List User :=
  users.map fun v => if v.id = u.id then u else v

/-- JavaScript String.prototype.trim: strip whitespace from both ends
(structurally recursive so that concrete runs evaluate in the kernel). -/
def trimString (s : String) : String :=
  ⟨((s.data.dropWhile Char.isWhitespace).reverse.dropWhile
      Char.isWhitespace).reverse⟩

/-- utils/password.ts comparePasswords: bcryptjs.compareSync applied to the
trimmed candidate and the stored hash.  The bcrypt comparison itself is the
external `check` parameter. -/
def comparePasswords (check : String → String → Bool)
    (bodyPassword userPassword : String) : Bool :=
  check (trimString bodyPassword) userPassword

/-- Clearing a stale lock in authenticateUser: reset the counters before
proceeding ("Reset failed login attempts upon successful login"). -/
def clearLock (u : User) : User :=
  { u with failedLoginAttempts := 0, accountLocked := false,
           lastFailedLoginDate := none }

/-- The locked-account guard at the top of AuthService.authenticateUser:
when the account is locked and has a last-failed date, compute the remaining
lock time LOCK_DURATION_MS - (now - lastFailed); when positive, throw the
locked-account AuthenticationError carrying the remaining time, otherwise
clear the lock in memory and continue. -/
def lockCheck (now : Nat) (u : User) : Except AppError User :=
  match u.accountLocked, u.lastFailedLoginDate with
  | true, some t =>
    if now - t < LOCK_DURATION_MS then
      Except.error ⟨ErrKind.authentication,
        ErrMsg.lockedRemaining (LOCK_DURATION_MS - (now - t))⟩
    else Except.ok (clearLock u)
  | true, none => Except.ok u
  | false, _ => Except.ok u

/-- AuthService.authenticateUser, translated clause by clause:
1. findOne by username; absent: AuthenticationError "Invalid username or
   password.".
2. locked-account guard (lockCheck above).
3. comparePasswords; on mismatch increment failedLoginAttempts, stamp
   lastFailedLoginDate, save; when the new count reaches
   MAX_LOGIN_ATTEMPTS also set accountLocked and save again, throwing the
   static lock message, otherwise throw the generic message.
4. on match save the (possibly lock-cleared) user, issue access and refresh
   tokens, upsert the refresh token into the session collection and return
   both tokens. -/
def authenticateUser (cfg : TokenConfig) (check : String → String → Bool)
    (username password : String) (now : Nat) (st : AuthState) :
    Except AppError (SignedToken × SignedToken) × AuthState :=
  match findUserByName username st.users with
  | none =>
    (Except.error ⟨ErrKind.authentication, ErrMsg.invalidCredentials⟩, st)
  | some user =>
    match lockCheck now user with
    | Except.error e => (Except.error e, st)
    | Except.ok user1 =>
      if comparePasswords check password user1.password then
        let refreshToken := generateRefreshToken cfg user1 now
        (Except.ok (generateAccessToken cfg user1 now, refreshToken),
         { users := saveUser user1 st.users,
           sessions :=
             storeRefreshTokenInDb refreshToken user1.id now st.sessions })
      else
        let user2 : User :=
          { user1 with
            failedLoginAttempts := user1.failedLoginAttempts + 1,
            lastFailedLoginDate := some now }
        if MAX_LOGIN_ATTEMPTS ≤ user2.failedLoginAttempts then
          (Except.error ⟨ErrKind.authentication, ErrMsg.lockedThreshold⟩,
           { st with
             users := saveUser { user2 with accountLocked := true } st.users })
        else
          (Except.error ⟨ErrKind.authentication, ErrMsg.invalidCredentials⟩,
           { st with users := saveUser user2 st.users })

/-- AuthService.refreshAccessToken: requires the cookie value; verifies the
refresh token through the session store; re-resolves the user by the decoded
id (InternalError "User not found in the database." when gone); returns a
fresh access token only, leaving all state untouched. -/
def refreshAccessToken (cfg : TokenConfig) (refreshToken : Option SignedToken)
    (now : Nat) (st : AuthState) : Except AppError SignedToken :=
  match refreshToken with
  | none =>
    Except.error ⟨ErrKind.authentication, ErrMsg.cookieMustBeProvided⟩
  | some rt =>
    match verifyRefreshToken st.sessions rt now with
    | Except.error e => Except.error e
    | Except.ok payload =>
      match findUserById payload.id st.users with
      | none => Except.error ⟨ErrKind.internal, ErrMsg.userNotFoundInDb⟩
      | some member => Except.ok (generateAccessToken cfg member now)

/-- AuthService.updatePassword: findByIdAndUpdate(userId, { password,
resetPassword: true }); InternalError "Failed to retrieve member profile."
when the update returns no row. -/
def updatePassword (uid : Nat) (password : String) (users : List User) :
    Except AppError (List User) :=
  match findUserById uid users with
  | none => Except.error ⟨ErrKind.internal, ErrMsg.failedRetrieveProfile⟩
  | some _ =>
    Except.ok (users.map fun v =>
      if v.id = uid then { v with password := password, resetPassword := true }
      else v)

/-- AuthService.resetUserPassword: requires the cookie; requires the target
user to exist; requires the two passwords to match (AuthenticationError
"Passwords do not match." otherwise, before any write); then hashes the new
password (external `hashFn`, salter + hashing from utils/password.ts),
persists it via updatePassword, and removes the session row matching the
cookie. -/
def resetUserPassword (hashFn : String → String) (userId : Nat)
    (cookie : Option SignedToken) (password confirmPassword : String)
    (st : AuthState) : Except AppError Unit × AuthState :=
  match cookie with
  | none =>
    (Except.error ⟨ErrKind.authentication, ErrMsg.cookieMustBeProvided⟩, st)
  | some c =>
    match findUserById userId st.users with
    | none =>
      (Except.error ⟨ErrKind.authentication, ErrMsg.memberNotFound⟩, st)
    | some _ =>
      if password = confirmPassword then
        match updatePassword userId (hashFn password) st.users with
        | Except.error e => (Except.error e, st)
        | Except.ok users' =>
          match removeRefreshToken c st.sessions with
          | Except.error e => (Except.error e, { st with users := users' })
          | Except.ok (_, sessions') =>
            (Except.ok (), { users := users', sessions := sessions' })
      else
        (Except.error ⟨ErrKind.authentication, ErrMsg.passwordsDoNotMatch⟩, st)

/-- AuthService.logoutUser: requires the cookie, then removes the session
row by token (propagating the not-found InternalError). -/
def logoutUser (cookie : Option SignedToken) (st : AuthState) :
    Except AppError Unit × AuthState :=
  match cookie with
  | none =>
    (Except.error ⟨ErrKind.authentication, ErrMsg.cookieMustBeProvided⟩, st)
  | some c =>
    match removeRefreshToken c st.sessions with
    | Except.error e => (Except.error e, st)
    | Except.ok (_, sessions') => (Except.ok (), { st with sessions := sessions' })

/-- Failed-attempt-by-IP record (src/Models/FailedLogin.ts, the
FailedLoginAttempt collection).  The optional lockTime field is a JS number;
the limiter inserts it as 0 and tests it for truthiness, so 0 models
"unset". -/
structure IPRecord where
  ip : String
  count : Nat
  lockTime : Nat
deriving Repr, DecidableEq

/-- FailedLoginAttempt.findOne({ ip }). -/
def findIP (ip : String) : List IPRecord → Option IPRecord
  | [] => none
  | r :: rs => if r.ip = ip then some r else findIP ip rs

/-- FailedLoginAttempt.findOneAndUpdate({ ip }, { $inc: { count: 1 },
$setOnInsert: { lockTime: 0 } }, { upsert: true }). -/
def incIP (ip : String) : List IPRecord → List IPRecord
  | [] => [⟨ip, 1, 0⟩]
  | r :: rs =>
    if r.ip = ip then { r with count := r.count + 1 } :: rs
    else r :: incIP ip rs

/-- newCountDB.lockTime = ...; newCountDB.save(): write the lock time onto
the record the limiter just updated (the first row for this ip). -/
def setIPLock (ip : String) (lockTime : Nat) : List IPRecord → List IPRecord
  | [] => []
  | r :: rs =>
    if r.ip = ip then { r with lockTime := lockTime } :: rs
    else r :: setIPLock ip lockTime rs

/-- FailedLoginAttempt.deleteOne({ ip }), the body of the limiter's
self-expiring cleanup timeout. -/
def deleteIP (ip : String) : List IPRecord → List IPRecord
  | [] => []
  | r :: rs => if r.ip = ip then rs else r :: deleteIP ip rs

/-- The truthiness test `countDB?.lockTime && currentTime < countDB.lockTime`
on the looked-up record. -/
def ipLockActive (now : Nat) : Option IPRecord → Bool
  | some r => !(r.lockTime == 0) && decide (now < r.lockTime)
  | none => false

/-- src/utils/limiter.ts rateLimiter, one request:
1. look the username up in the User collection and the ip up in the
   FailedLoginAttempt collection;
2. when the user exists and the ip's lock time has not elapsed, throw
   ManyRequests;
3. when the user does not exist, increment (upsert) the ip's count; if the
   new count reaches maxRequests, stamp lockTime = now + windowMs and throw
   ManyRequests; otherwise fall through;
4. otherwise pass the request on (Except.ok ()).
The timeout-driven record deletion is modelled separately by deleteIP. -/
def rateLimiter (maxRequests windowMs : Nat) (users : List User)
    (ip username : String) (now : Nat) (failed : List IPRecord) :
    Except AppError Unit × List IPRecord :=
  let user := findUserByName username users
  let countDB := findIP ip failed
  if user.isSome && ipLockActive now countDB then
    (Except.error ⟨ErrKind.manyRequests, ErrMsg.accountLockedTryLater⟩, failed)
  else if user.isNone then
    let failed1 := incIP ip failed
    match findIP ip failed1 with
    | some newCountDB =>
      if maxRequests ≤ newCountDB.count then
        (Except.error ⟨ErrKind.manyRequests, ErrMsg.accountLockedTryLater⟩,
         setIPLock ip (now + windowMs) failed1)
      else (Except.ok (), failed1)
    | none => (Except.ok (), failed1)
  else (Except.ok (), failed)

/-- The FailedLoginAttempt collection states reachable by the limiter: the
empty collection, one limiter request, or one firing of the self-expiring
cleanup (deleteOne by ip). -/
inductive ReachFailed (maxRequests windowMs : Nat) : List IPRecord → Prop where
  | nil : ReachFailed maxRequests windowMs []
  | attempt (users : List User) (ip username : String) (now : Nat)
      {failed : List IPRecord} :
      ReachFailed maxRequests windowMs failed →
      ReachFailed maxRequests windowMs
        (rateLimiter maxRequests windowMs users ip username now failed).2
  | expire (ip : String) {failed : List IPRecord} :
      ReachFailed maxRequests windowMs failed →
      ReachFailed maxRequests windowMs (deleteIP ip failed)

/-- Invariant of the limiter's collection: a record whose lockTime is set
carries a count that already reached maxRequests. -/
def lockedImpliesMax (maxRequests : Nat) (failed : List IPRecord) : Prop :=
  ∀ r ∈ failed, r.lockTime ≠ 0 → maxRequests ≤ r.count

/-- The failed-attempt count stored for an ip (0 when no record exists). -/
def ipCount (ip : String) (failed : List IPRecord) : Nat :=
  match findIP ip failed with
  | some r => r.count
  | none => 0

/-- Number of session rows held for a given user id. -/
def countSessUser (uid : Nat) : List Session → Nat
  | [] => 0
  | s :: ss => (if s.userId = uid then 1 else 0) + countSessUser uid ss

/-- Number of session rows holding a given refresh token (the schema keeps a
unique index on refreshToken, so real states have at most one). -/
def countSessTok (rt : SignedToken) : List Session → Nat
  | [] => 0
  | s :: ss => (if s.refreshToken = rt then 1 else 0) + countSessTok rt ss

/-- Token lifetimes used by the concrete scenarios (15 minutes / 7 days, in
seconds). -/
def demoCfg : TokenConfig := ⟨900, 604800⟩

/-- A concrete stand-in for bcryptjs.compareSync in scenarios: candidate
matches the stored credential exactly. -/
def eqCheck : String → String → Bool := fun a b => a == b

/-- Five-wrong-attempts scenario: the account "alice" with no prior
failures. -/
def c5St0 : AuthState :=
  ⟨[⟨1, "alice", "correct", false, "employee", 0, false, none⟩], []⟩

/-- One login attempt for "alice" with the wrong password. -/
def c5Attempt (now : Nat) (st : AuthState) :
    Except AppError (SignedToken × SignedToken) × AuthState :=
  authenticateUser demoCfg eqCheck "alice" "wrong" now st

/-- State after the first wrong attempt (at time 0). -/
def c5St1 : AuthState := (c5Attempt 0 c5St0).2

/-- State after the second wrong attempt (at time 1). -/
def c5St2 : AuthState := (c5Attempt 1 c5St1).2

/-- State after the third wrong attempt (at time 2). -/
def c5St3 : AuthState := (c5Attempt 2 c5St2).2

/-- State after the fourth wrong attempt (at time 3). -/
def c5St4 : AuthState := (c5Attempt 3 c5St3).2

/-- State after the fifth wrong attempt (at time 4). -/
def c5St5 : AuthState := (c5Attempt 4 c5St4).2

/-- Counter-not-reset scenario: the account "carol" with no prior
failures. -/
def c4St0 : AuthState :=
  ⟨[⟨1, "carol", "pw", false, "employee", 0, false, none⟩], []⟩

/-- One login attempt for "carol" with the wrong password. -/
def c4Wrong (now : Nat) (st : AuthState) :
    Except AppError (SignedToken × SignedToken) × AuthState :=
  authenticateUser demoCfg eqCheck "carol" "bad" now st

/-- State after one wrong attempt (at time 0). -/
def c4St1 : AuthState := (c4Wrong 0 c4St0).2

/-- State after two wrong attempts. -/
def c4St2 : AuthState := (c4Wrong 1 c4St1).2

/-- State after three wrong attempts. -/
def c4St3 : AuthState := (c4Wrong 2 c4St2).2

/-- The fourth attempt: correct password at time 3, after three failures. -/
def c4Res : Except AppError (SignedToken × SignedToken) × AuthState :=
  authenticateUser demoCfg eqCheck "carol" "pw" 3 c4St3

/-- A refresh token for the reset-password scenarios. -/
def demoTok : SignedToken :=
  ⟨⟨1, "bob", false, "employee"⟩, Secret.refresh, 0, 604800⟩

/-- Reset-password scenario state: user "bob" with one live session row. -/
def c9St : AuthState :=
  ⟨[⟨1, "bob", "stored", false, "employee", 0, false, none⟩],
   [⟨demoTok, 1, 0⟩]⟩

/-- A concrete stand-in for salter + hashing in scenarios. -/
def demoHash : String → String := fun s => s ++ "#h"

theorem findIP_incIP (ip : String) (failed : List IPRecord) :
    findIP ip (incIP ip failed) =
      some (match findIP ip failed with
            | some r => { r with count := r.count + 1 }
            | none => ⟨ip, 1, 0⟩) := by
  induction failed with
  | nil => simp [findIP, incIP]
  | cons r rs ih =>
    by_cases h : r.ip = ip
    · simp [findIP, incIP, h]
    · simp [findIP, incIP, h, ih]

theorem findIP_setIPLock (ip : String) (lt : Nat) (failed : List IPRecord) :
    findIP ip (setIPLock ip lt failed) =
      (findIP ip failed).map fun r => { r with lockTime := lt } := by
  induction failed with
  | nil => simp [findIP, setIPLock]
  | cons r rs ih =>
    by_cases h : r.ip = ip
    · simp [findIP, setIPLock, h]
    · simp [findIP, setIPLock, h, ih]

theorem findIP_mem (ip : String) (failed : List IPRecord) (r : IPRecord)
    (h : findIP ip failed = some r) : r ∈ failed := by
  induction failed with
  | nil => simp [findIP] at h
  | cons s ss ih =>
    unfold findIP at h
    by_cases hs : s.ip = ip
    · rw [if_pos hs] at h
      rw [← Option.some.inj h]
      exact List.mem_cons_self s ss
    · rw [if_neg hs] at h
      exact List.mem_cons_of_mem s (ih h)

theorem lockedImpliesMax_incIP (m : Nat) (ip : String)
    (failed : List IPRecord) :
    lockedImpliesMax m failed → lockedImpliesMax m (incIP ip failed) := by
  induction failed with
  | nil =>
    intro _ r hr hlt
    simp [incIP] at hr
    rw [hr] at hlt
    exact absurd rfl hlt
  | cons s ss ih =>
    intro h r hr hlt
    unfold incIP at hr
    by_cases hs : s.ip = ip
    · rw [if_pos hs] at hr
      rcases List.mem_cons.mp hr with hr1 | hr2
      · rw [hr1]
        calc m ≤ s.count := h s (List.mem_cons_self s ss) (by rw [hr1] at hlt; exact hlt)
          _ ≤ s.count + 1 := Nat.le_succ _
      · exact h r (List.mem_cons_of_mem s hr2) hlt
    · rw [if_neg hs] at hr
      rcases List.mem_cons.mp hr with hr1 | hr2
      · rw [hr1]
        exact h s (List.mem_cons_self s ss) (by rw [hr1] at hlt; exact hlt)
      · exact ih (fun x hx hlx => h x (List.mem_cons_of_mem s hx) hlx) r hr2
          hlt

theorem lockedImpliesMax_setIPLock (m : Nat) (ip : String) (lt : Nat)
    (failed : List IPRecord) :
    lockedImpliesMax m failed →
    (∀ r, findIP ip failed = some r → m ≤ r.count) →
    lockedImpliesMax m (setIPLock ip lt failed) := by
  induction failed with
  | nil =>
    intro _ _ r hr
    simp [setIPLock] at hr
  | cons s ss ih =>
    intro h hc r hr hlt
    unfold setIPLock at hr
    by_cases hs : s.ip = ip
    · rw [if_pos hs] at hr
      rcases List.mem_cons.mp hr with hr1 | hr2
      · rw [hr1]
        exact hc s (by unfold findIP; rw [if_pos hs])
      · exact h r (List.mem_cons_of_mem s hr2) hlt
    · rw [if_neg hs] at hr
      rcases List.mem_cons.mp hr with hr1 | hr2
      · rw [hr1]
        exact h s (List.mem_cons_self s ss) (by rw [hr1] at hlt; exact hlt)
      · refine ih (fun x hx hlx => h x (List.mem_cons_of_mem s hx) hlx)
          ?_ r hr2 hlt
        intro r' hfr'
        refine hc r' ?_
        unfold findIP
        rw [if_neg hs]
        exact hfr'

theorem lockedImpliesMax_deleteIP (m : Nat) (ip : String)
    (failed : List IPRecord) :
    lockedImpliesMax m failed → lockedImpliesMax m (deleteIP ip failed) := by
  induction failed with
  | nil =>
    intro _ r hr
    simp [deleteIP] at hr
  | cons s ss ih =>
    intro h r hr hlt
    unfold deleteIP at hr
    by_cases hs : s.ip = ip
    · rw [if_pos hs] at hr
      exact h r (List.mem_cons_of_mem s hr) hlt
    · rw [if_neg hs] at hr
      rcases List.mem_cons.mp hr with hr1 | hr2
      · rw [hr1]
        exact h s (List.mem_cons_self s ss) (by rw [hr1] at hlt; exact hlt)
      · exact ih (fun x hx hlx => h x (List.mem_cons_of_mem s hx) hlx) r hr2
          hlt

theorem rateLimiter_preserves_lockedImpliesMax (m w : Nat)
    (users : List User) (ip username : String) (now : Nat)
    (failed : List IPRecord) (h : lockedImpliesMax m failed) :
    lockedImpliesMax m (rateLimiter m w users ip username now failed).2 := by
  unfold rateLimiter
  dsimp only
  split
  · exact h
  · split
    · split
      · rename_i newRec heq
        split
        · rename_i hcount
          refine lockedImpliesMax_setIPLock m ip (now + w) (incIP ip failed)
            (lockedImpliesMax_incIP m ip failed h) ?_
          intro r hr
          rw [heq] at hr
          rw [← Option.some.inj hr]
          exact hcount
        · exact lockedImpliesMax_incIP m ip failed h
      · exact lockedImpliesMax_incIP m ip failed h
    · exact h

theorem reachFailed_lockedImpliesMax (m w : Nat) (failed : List IPRecord)
    (h : ReachFailed m w failed) : lockedImpliesMax m failed := by
  induction h with
  | nil =>
    intro r hr
    exact absurd hr (List.not_mem_nil r)
  | attempt users ip username now _ ih =>
    exact rateLimiter_preserves_lockedImpliesMax m w users ip username now
      _ ih
  | expire ip _ ih => exact lockedImpliesMax_deleteIP m ip _ ih

theorem ipCount_incIP (ip : String) (failed : List IPRecord) :
    ipCount ip (incIP ip failed) = ipCount ip failed + 1 := by
  unfold ipCount
  rw [findIP_incIP]
  rcases h : findIP ip failed with _ | r <;> simp [h]

theorem ipCount_setIPLock (ip : String) (lt : Nat)
    (failed : List IPRecord) :
    ipCount ip (setIPLock ip lt failed) = ipCount ip failed := by
  unfold ipCount
  rw [findIP_setIPLock]
  rcases h : findIP ip failed with _ | r <;> simp [h]

/-- C6: the per-IP failed-attempt record is incremented exactly when the
supplied username does not resolve to an existing user; whenever the
username exists the limiter leaves the FailedLoginAttempt collection
untouched, whatever the password or lock state. -/
theorem ip_counter_increments_iff_unknown_username (m w : Nat)
    (users : List User) (ip username : String) (now : Nat)
    (failed : List IPRecord) :
    (findUserByName username users = none →
        ipCount ip (rateLimiter m w users ip username now failed).2 =
          ipCount ip failed + 1) ∧
      (∀ u, findUserByName username users = some u →
        (rateLimiter m w users ip username now failed).2 = failed) := by
  constructor
  · intro hnone
    unfold rateLimiter
    simp only [hnone, Option.isSome_none, Bool.false_and, Bool.false_eq_true,
      if_false, Option.isNone_none, if_true]
    split
    · split
      · rw [ipCount_setIPLock]
        exact ipCount_incIP ip failed
      · exact ipCount_incIP ip failed
    · exact ipCount_incIP ip failed
  · intro u hu
    unfold rateLimiter
    rcases hact : ipLockActive now (findIP ip failed) with _ | _ <;>
      simp [hu, hact]

/-- Witness for C6: an unknown username bumps the (empty) record for its
source IP from 0 to 1. -/
theorem ip_counter_increments_iff_unknown_username_witness :
    ipCount "9.9.9.9" (rateLimiter 3 1000 [] "9.9.9.9" "ghost" 0 []).2 =
      ipCount "9.9.9.9" [] + 1 :=
  (ip_counter_increments_iff_unknown_username 3 1000 [] "9.9.9.9" "ghost"
    0 []).1 rfl

/-- C7: in any collection state the limiter can actually reach, a source IP
whose record carries an unexpired lock time is rejected with the
ManyRequests error on every login attempt, whether or not the supplied
username resolves to an existing user. -/
theorem ip_locked_rejects_any_username (m w : Nat) (users : List User)
    (ip username : String) (now : Nat) (failed : List IPRecord)
    (r : IPRecord) (hreach : ReachFailed m w failed)
    (hfind : findIP ip failed = some r) (hlock : r.lockTime ≠ 0)
    (hnow : now < r.lockTime) :
    (rateLimiter m w users ip username now failed).1 =
      Except.error ⟨ErrKind.manyRequests, ErrMsg.accountLockedTryLater⟩ := by
  have hinv := reachFailed_lockedImpliesMax m w failed hreach
  have hcount : m ≤ r.count := hinv r (findIP_mem ip failed r hfind) hlock
  have hact : ipLockActive now (findIP ip failed) = true := by
    rw [hfind]
    unfold ipLockActive
    simp [hlock, hnow]
  unfold rateLimiter
  rcases hfu : findUserByName username users with _ | u
  · have hstep : m ≤ r.count + 1 := Nat.le_succ_of_le hcount
    simp [hfu, hact, findIP_incIP, hfind, hstep]
  · simp [hfu, hact]

/-- Witness for C7: the IP 1.2.3.4 got locked by probing an unknown
username (a reachable state); while the lock is unexpired, even a login for
the existing user "eve" from that IP is rejected with ManyRequests. -/
theorem ip_locked_rejects_any_username_witness :
    (rateLimiter 1 10
        [⟨2, "eve", "pw", false, "employee", 0, false, none⟩]
        "1.2.3.4" "eve" 5 [⟨"1.2.3.4", 1, 10⟩]).1 =
      Except.error ⟨ErrKind.manyRequests, ErrMsg.accountLockedTryLater⟩ :=
  ip_locked_rejects_any_username 1 10
    [⟨2, "eve", "pw", false, "employee", 0, false, none⟩] "1.2.3.4" "eve" 5
    [⟨"1.2.3.4", 1, 10⟩] ⟨"1.2.3.4", 1, 10⟩
    (show ReachFailed 1 10 [⟨"1.2.3.4", 1, 10⟩] from
      ReachFailed.attempt [] "1.2.3.4" "ghost" 0 ReachFailed.nil)
    rfl (by decide) (by decide)

theorem lockCheck_not_locked (now : Nat) (u : User)
    (h : u.accountLocked = false) : lockCheck now u = Except.ok u := by
  unfold lockCheck
  rw [h]

theorem lockCheck_locked_active (now t : Nat) (u : User)
    (hl : u.accountLocked = true) (ht : u.lastFailedLoginDate = some t)
    (hwin : now - t < LOCK_DURATION_MS) :
    lockCheck now u =
      Except.error ⟨ErrKind.authentication,
        ErrMsg.lockedRemaining (LOCK_DURATION_MS - (now - t))⟩ := by
  unfold lockCheck
  rw [hl, ht]
  simp [hwin]

theorem lockCheck_locked_elapsed (now t : Nat) (u : User)
    (hl : u.accountLocked = true) (ht : u.lastFailedLoginDate = some t)
    (hnot : ¬ now - t < LOCK_DURATION_MS) :
    lockCheck now u = Except.ok (clearLock u) := by
  unfold lockCheck
  rw [hl, ht]
  simp [hnot]

theorem authenticateUser_success_eq (cfg : TokenConfig)
    (check : String → String → Bool) (username password : String) (now : Nat)
    (st : AuthState) (u u1 : User)
    (hfind : findUserByName username st.users = some u)
    (hlc : lockCheck now u = Except.ok u1)
    (hpw : comparePasswords check password u1.password = true) :
    authenticateUser cfg check username password now st =
      (Except.ok (generateAccessToken cfg u1 now,
         generateRefreshToken cfg u1 now),
       { users := saveUser u1 st.users,
         sessions := storeRefreshTokenInDb (generateRefreshToken cfg u1 now)
           u1.id now st.sessions }) := by
  unfold authenticateUser
  simp [hfind, hlc, hpw]

theorem mem_saveUser_of_id (u v : User) (users : List User)
    (hv : v ∈ saveUser u users) (hid : v.id = u.id) : v = u := by
  unfold saveUser at hv
  rcases List.mem_map.mp hv with ⟨w, _, hweq⟩
  by_cases hwid : w.id = u.id
  · rw [if_pos hwid] at hweq
    exact hweq.symm
  · rw [if_neg hwid] at hweq
    rw [← hweq] at hid
    exact absurd hid hwid

theorem findUserByName_some_username (username : String) (users : List User)
    (u : User) (h : findUserByName username users = some u) :
    u.username = username := by
  induction users with
  | nil => simp [findUserByName] at h
  | cons v vs ih =>
    unfold findUserByName at h
    by_cases hv : v.username = username
    · rw [if_pos hv] at h
      rw [← Option.some.inj h]
      exact hv
    · rw [if_neg hv] at h
      exact ih h

theorem findUserByName_saveUser (username : String) (u : User)
    (users : List User) (h : findUserByName username users = some u) :
    findUserByName username (saveUser u users) = some u := by
  have hun : u.username = username :=
    findUserByName_some_username username users u h
  induction users with
  | nil => simp [findUserByName] at h
  | cons v vs ih =>
    unfold findUserByName at h
    unfold saveUser
    simp only [List.map_cons]
    unfold findUserByName
    by_cases hid : v.id = u.id
    · rw [if_pos hid, if_pos hun]
    · rw [if_neg hid]
      by_cases hv : v.username = username
      · rw [if_pos hv] at h ⊢
        exact h
      · rw [if_neg hv] at h ⊢
        exact ih h

theorem storeRefreshTokenInDb_twice (rt1 rt2 : SignedToken)
    (uid t1 t2 : Nat) (db : List Session) :
    storeRefreshTokenInDb rt2 uid t2 (storeRefreshTokenInDb rt1 uid t1 db) =
      storeRefreshTokenInDb rt2 uid t2 db := by
  induction db with
  | nil => simp [storeRefreshTokenInDb]
  | cons s ss ih =>
    by_cases h : s.userId = uid
    · simp [storeRefreshTokenInDb, h]
    · simp [storeRefreshTokenInDb, h, ih]

theorem findSessionByToken_store_self (rt : SignedToken) (uid now : Nat)
    (db : List Session) :
    (findSessionByToken rt (storeRefreshTokenInDb rt uid now db)).isSome =
      true := by
  induction db with
  | nil => simp [storeRefreshTokenInDb, findSessionByToken]
  | cons s ss ih =>
    by_cases h : s.userId = uid
    · simp [storeRefreshTokenInDb, findSessionByToken, h]
    · by_cases ht : s.refreshToken = rt
      · simp [storeRefreshTokenInDb, findSessionByToken, h, ht]
      · simp [storeRefreshTokenInDb, findSessionByToken, h, ht, ih]

theorem findSessionByToken_none_of_all_ne (rt : SignedToken)
    (db : List Session) (h : ∀ s ∈ db, s.refreshToken ≠ rt) :
    findSessionByToken rt db = none := by
  induction db with
  | nil => rfl
  | cons s ss ih =>
    unfold findSessionByToken
    rw [if_neg (h s (List.mem_cons_self s ss))]
    exact ih fun x hx => h x (List.mem_cons_of_mem s hx)

theorem findSessionByToken_store_other (rt rt' : SignedToken)
    (uid now : Nat) (db : List Session) (hne : rt' ≠ rt)
    (habs : ∀ s ∈ db, s.refreshToken ≠ rt') :
    findSessionByToken rt' (storeRefreshTokenInDb rt uid now db) = none := by
  induction db with
  | nil =>
    unfold storeRefreshTokenInDb findSessionByToken
    rw [if_neg (fun hc => hne hc.symm)]
    rfl
  | cons s ss ih =>
    have hs : s.refreshToken ≠ rt' := habs s (List.mem_cons_self s ss)
    have htail : ∀ x ∈ ss, x.refreshToken ≠ rt' :=
      fun x hx => habs x (List.mem_cons_of_mem s hx)
    unfold storeRefreshTokenInDb
    by_cases h : s.userId = uid
    · rw [if_pos h]
      unfold findSessionByToken
      rw [if_neg (fun hc => hne hc.symm)]
      exact findSessionByToken_none_of_all_ne rt' ss htail
    · rw [if_neg h]
      unfold findSessionByToken
      rw [if_neg hs]
      exact ih htail

theorem countSessUser_store_le (rt : SignedToken) (uid now : Nat)
    (db : List Session) (h : countSessUser uid db ≤ 1) :
    countSessUser uid (storeRefreshTokenInDb rt uid now db) ≤ 1 := by
  induction db with
  | nil => simp [storeRefreshTokenInDb, countSessUser]
  | cons s ss ih =>
    unfold countSessUser at h
    unfold storeRefreshTokenInDb
    by_cases hs : s.userId = uid
    · rw [if_pos hs] at h
      rw [if_pos hs]
      unfold countSessUser
      simp only [if_pos rfl]
      exact h
    · rw [if_neg hs] at h
      rw [if_neg hs]
      unfold countSessUser
      rw [if_neg hs]
      simp only [Nat.zero_add] at h ⊢
      exact ih h

theorem countSessTok_zero_find_none (rt : SignedToken) (db : List Session)
    (h : countSessTok rt db = 0) : findSessionByToken rt db = none := by
  induction db with
  | nil => rfl
  | cons s ss ih =>
    unfold countSessTok at h
    unfold findSessionByToken
    by_cases hs : s.refreshToken = rt
    · rw [if_pos hs] at h
      omega
    · rw [if_neg hs] at h
      rw [if_neg hs]
      exact ih (by omega)

theorem removeRefreshToken_find_none (c : SignedToken) :
    ∀ (db db' : List Session) (uid : Nat),
      removeRefreshToken c db = Except.ok (uid, db') →
      countSessTok c db ≤ 1 → findSessionByToken c db' = none := by
  intro db
  induction db with
  | nil =>
    intro db' uid hrm _
    simp [removeRefreshToken] at hrm
  | cons s ss ih =>
    intro db' uid hrm hdup
    unfold removeRefreshToken at hrm
    unfold countSessTok at hdup
    by_cases hs : s.refreshToken = c
    · rw [if_pos hs] at hrm hdup
      have hp : (s.userId, ss) = (uid, db') := Except.ok.inj hrm
      injection hp with _ hb
      rw [← hb]
      exact countSessTok_zero_find_none c ss (by omega)
    · rw [if_neg hs] at hrm hdup
      rcases hrec : removeRefreshToken c ss with e | p
      · rw [hrec] at hrm
        exact Except.noConfusion hrm
      · rcases p with ⟨uid0, ss'⟩
        rw [hrec] at hrm
        have hp : (uid0, s :: ss') = (uid, db') := Except.ok.inj hrm
        injection hp with _ hb
        rw [← hb]
        unfold findSessionByToken
        rw [if_neg hs]
        exact ih ss' uid0 hrec (by omega)

/-- C1: once an account is locked (threshold reached, accountLocked set),
every further login attempt, whatever the supplied password, fails with the
locked-account error carrying the remaining lock time, for as long as the
lock duration has not elapsed since the last failed attempt; the state is
untouched, so no tokens are issued and no session row is written. -/
theorem lockedAccount_rejects_all_attempts (cfg : TokenConfig)
    (check : String → String → Bool) (username password : String)
    (now t : Nat) (st : AuthState) (u : User)
    (hfind : findUserByName username st.users = some u)
    (hthresh : MAX_LOGIN_ATTEMPTS ≤ u.failedLoginAttempts)
    (hlocked : u.accountLocked = true)
    (hlast : u.lastFailedLoginDate = some t)
    (hwin : now - t < LOCK_DURATION_MS) :
    authenticateUser cfg check username password now st =
      (Except.error ⟨ErrKind.authentication,
         ErrMsg.lockedRemaining (LOCK_DURATION_MS - (now - t))⟩, st) := by
  unfold authenticateUser
  simp [hfind, lockCheck_locked_active now t u hlocked hlast hwin]

/-- Witness for C1: a concrete locked account (5 failures, last at time
1000) rejects a later attempt at time 2000 even though the supplied
password matches the stored credential. -/
theorem lockedAccount_rejects_all_attempts_witness :
    authenticateUser demoCfg eqCheck "alice" "correct" 2000
        ⟨[⟨1, "alice", "correct", false, "employee", 5, true, some 1000⟩], []⟩ =
      (Except.error ⟨ErrKind.authentication,
         ErrMsg.lockedRemaining (LOCK_DURATION_MS - (2000 - 1000))⟩,
       ⟨[⟨1, "alice", "correct", false, "employee", 5, true, some 1000⟩], []⟩) :=
  lockedAccount_rejects_all_attempts demoCfg eqCheck "alice" "correct"
    2000 1000
    ⟨[⟨1, "alice", "correct", false, "employee", 5, true, some 1000⟩], []⟩
    ⟨1, "alice", "correct", false, "employee", 5, true, some 1000⟩
    rfl (by decide) rfl rfl (by decide)

/-- C10: a refresh token with no matching session row is rejected by
verifyRefreshToken (hence by refreshAccessToken), even when it carries the
refresh secret and is unexpired: the session lookup precedes the
signature/expiry check. -/
theorem refresh_requires_session_row (cfg : TokenConfig) (rt : SignedToken)
    (st : AuthState) (now : Nat)
    (habsent : findSessionByToken rt st.sessions = none)
    (hsig : rt.secret = Secret.refresh)
    (hexp : now / 1000 < rt.exp) :
    verifyRefreshToken st.sessions rt now =
        Except.error ⟨ErrKind.internal, ErrMsg.tokenNotFoundInDb⟩ ∧
      refreshAccessToken cfg (some rt) now st =
        Except.error ⟨ErrKind.internal, ErrMsg.tokenNotFoundInDb⟩ := by
  have h1 : verifyRefreshToken st.sessions rt now =
      Except.error ⟨ErrKind.internal, ErrMsg.tokenNotFoundInDb⟩ := by
    unfold verifyRefreshToken
    rw [habsent]
  refine ⟨h1, ?_⟩
  unfold refreshAccessToken
  simp [h1]

/-- Witness for C10: a well-signed, unexpired refresh token fails both
verification paths when the session store is empty. -/
theorem refresh_requires_session_row_witness :
    verifyRefreshToken [] demoTok 5000 =
        Except.error ⟨ErrKind.internal, ErrMsg.tokenNotFoundInDb⟩ ∧
      refreshAccessToken demoCfg (some demoTok) 5000 ⟨[], []⟩ =
        Except.error ⟨ErrKind.internal, ErrMsg.tokenNotFoundInDb⟩ :=
  refresh_requires_session_row demoCfg demoTok ⟨[], []⟩ 5000 rfl rfl
    (by decide)

/-- C9 counterexample: with the session cookie present, the target user
existing, and newPassword ≠ confirmPassword, resetUserPassword throws an
AuthenticationError (HTTP 401), not a validation-class error (ValidationError,
HTTP 400) as the claim states; the state is unchanged. -/
theorem reset_mismatch_error_kind_cex :
    (resetUserPassword demoHash 1 (some demoTok) "abc123" "abc124" c9St).1 =
        Except.error ⟨ErrKind.authentication, ErrMsg.passwordsDoNotMatch⟩ ∧
      (resetUserPassword demoHash 1 (some demoTok) "abc123" "abc124" c9St).2 =
        c9St ∧
      ErrKind.authentication ≠ ErrKind.validation := by
  decide

/-- C9 amended: with the cookie present, the user existing and the two
passwords differing, resetUserPassword fails with the authentication-class
error "Passwords do not match." and performs no write: user records and
session rows are untouched. -/
theorem reset_mismatch_auth_error_no_write (hashFn : String → String)
    (userId : Nat) (c : SignedToken) (pw confirm : String) (st : AuthState)
    (u : User) (hfind : findUserById userId st.users = some u)
    (hne : pw ≠ confirm) :
    resetUserPassword hashFn userId (some c) pw confirm st =
      (Except.error ⟨ErrKind.authentication, ErrMsg.passwordsDoNotMatch⟩,
       st) := by
  unfold resetUserPassword
  rw [hfind]
  simp [hne]

/-- Witness for the amended C9 at a concrete state. -/
theorem reset_mismatch_auth_error_no_write_witness :
    resetUserPassword demoHash 1 (some demoTok) "abc123" "abc124" c9St =
      (Except.error ⟨ErrKind.authentication, ErrMsg.passwordsDoNotMatch⟩,
       c9St) :=
  reset_mismatch_auth_error_no_write demoHash 1 demoTok "abc123" "abc124"
    c9St ⟨1, "bob", "stored", false, "employee", 0, false, none⟩ rfl
    (by decide)

/-- C5 counterexample: in the five-wrong-attempts run for "alice", the
fifth attempt's response is the locked-account threshold error, not the
generic invalid-credentials error the claim requires. -/
theorem fifth_attempt_not_generic_cex :
    (c5Attempt 4 c5St4).1 =
        Except.error ⟨ErrKind.authentication, ErrMsg.lockedThreshold⟩ ∧
      (c5Attempt 4 c5St4).1 ≠
        Except.error ⟨ErrKind.authentication, ErrMsg.invalidCredentials⟩ := by
  decide

/-- C5 amended: the fifth wrong attempt is the one that crosses the
threshold, so its response is already the locked-account error (the static
threshold message); the sixth attempt, made while the lock window is still
open, fails with the locked-account error carrying the remaining lock time
(59999 ms at one millisecond into the window). -/
theorem fifth_locked_sixth_remaining :
    (c5Attempt 4 c5St4).1 =
        Except.error ⟨ErrKind.authentication, ErrMsg.lockedThreshold⟩ ∧
      (c5Attempt 5 c5St5).1 =
        Except.error ⟨ErrKind.authentication,
          ErrMsg.lockedRemaining (LOCK_DURATION_MS - 1)⟩ := by
  decide

/-- C4 counterexample: a run of three wrong-password attempts for "carol"
followed by a correct-password login succeeds (both tokens are issued), yet
the persisted user record still carries failedLoginAttempts = 3, not 0. -/
theorem success_leaves_counter_nonzero_cex :
    c4Res.1 =
        Except.ok
          (⟨⟨1, "carol", false, "employee"⟩, Secret.access, 0, 900⟩,
           ⟨⟨1, "carol", false, "employee"⟩, Secret.refresh, 0, 604800⟩) ∧
      findUserByName "carol" c4Res.2.users =
        some ⟨1, "carol", "pw", false, "employee", 3, false, some 2⟩ ∧
      (3 : Nat) ≠ 0 := by
  decide

/-- C4 amended: a successful login on an account that is not locked leaves
the persisted failedLoginAttempts at its pre-call value (zero only when it
already was zero); the counter is reset during login only on the separate
stale-lock-clearing path. -/
theorem success_keeps_counter_unchanged (cfg : TokenConfig)
    (check : String → String → Bool) (username password : String) (now : Nat)
    (st : AuthState) (u : User)
    (hfind : findUserByName username st.users = some u)
    (hnl : u.accountLocked = false)
    (hpw : comparePasswords check password u.password = true) :
    authenticateUser cfg check username password now st =
        (Except.ok (generateAccessToken cfg u now,
           generateRefreshToken cfg u now),
         { users := saveUser u st.users,
           sessions := storeRefreshTokenInDb (generateRefreshToken cfg u now)
             u.id now st.sessions }) ∧
      ∀ v ∈ saveUser u st.users, v.id = u.id →
        v.failedLoginAttempts = u.failedLoginAttempts := by
  refine ⟨authenticateUser_success_eq cfg check username password now st u u
    hfind (lockCheck_not_locked now u hnl) hpw, ?_⟩
  intro v hv hid
  rw [mem_saveUser_of_id u v st.users hv hid]

/-- Witness for the amended C4: "dave" logs in successfully with two prior
failures on record; the persisted counter stays at 2. -/
theorem success_keeps_counter_unchanged_witness :
    authenticateUser demoCfg eqCheck "dave" "pw" 1000
        ⟨[⟨7, "dave", "pw", false, "employee", 2, false, some 0⟩], []⟩ =
        (Except.ok
          (generateAccessToken demoCfg
             ⟨7, "dave", "pw", false, "employee", 2, false, some 0⟩ 1000,
           generateRefreshToken demoCfg
             ⟨7, "dave", "pw", false, "employee", 2, false, some 0⟩ 1000),
         { users := saveUser ⟨7, "dave", "pw", false, "employee", 2, false,
             some 0⟩ [⟨7, "dave", "pw", false, "employee", 2, false, some 0⟩],
           sessions := storeRefreshTokenInDb
             (generateRefreshToken demoCfg
               ⟨7, "dave", "pw", false, "employee", 2, false, some 0⟩ 1000)
             7 1000 [] }) ∧
      ∀ v ∈ saveUser ⟨7, "dave", "pw", false, "employee", 2, false, some 0⟩
          [⟨7, "dave", "pw", false, "employee", 2, false, some 0⟩],
        v.id = 7 → v.failedLoginAttempts = 2 :=
  success_keeps_counter_unchanged demoCfg eqCheck "dave" "pw" 1000
    ⟨[⟨7, "dave", "pw", false, "employee", 2, false, some 0⟩], []⟩
    ⟨7, "dave", "pw", false, "employee", 2, false, some 0⟩ rfl rfl (by decide)

/-- C8: for an account locked with last failure at time t, a login at any
time ≥ t + LOCK_DURATION_MS whose password matches succeeds, returns both
tokens, and persists the reset state: failedLoginAttempts = 0,
accountLocked = false, lastFailedLoginDate = null. -/
theorem lock_expiry_login_succeeds_and_resets (cfg : TokenConfig)
    (check : String → String → Bool) (username password : String)
    (now t : Nat) (st : AuthState) (u : User)
    (hfind : findUserByName username st.users = some u)
    (hlocked : u.accountLocked = true)
    (hlast : u.lastFailedLoginDate = some t)
    (helapsed : t + LOCK_DURATION_MS ≤ now)
    (hpw : comparePasswords check password u.password = true) :
    authenticateUser cfg check username password now st =
        (Except.ok (generateAccessToken cfg (clearLock u) now,
           generateRefreshToken cfg (clearLock u) now),
         { users := saveUser (clearLock u) st.users,
           sessions := storeRefreshTokenInDb
             (generateRefreshToken cfg (clearLock u) now) u.id now
             st.sessions }) ∧
      ∀ v ∈ saveUser (clearLock u) st.users, v.id = u.id →
        v.failedLoginAttempts = 0 ∧ v.accountLocked = false ∧
          v.lastFailedLoginDate = none := by
  have hnot : ¬ now - t < LOCK_DURATION_MS := by
    unfold LOCK_DURATION_MS at helapsed ⊢
    omega
  refine ⟨authenticateUser_success_eq cfg check username password now st u
    (clearLock u) hfind (lockCheck_locked_elapsed now t u hlocked hlast hnot)
    hpw, ?_⟩
  intro v hv hid
  have hv' : v = clearLock u :=
    mem_saveUser_of_id (clearLock u) v st.users hv hid
  rw [hv']
  exact ⟨rfl, rfl, rfl⟩

/-- Witness for C8: "erin", locked since time 0 with five failures, logs in
with the correct password exactly at the end of the lock window; the call
succeeds and the persisted record is fully reset. -/
theorem lock_expiry_login_succeeds_and_resets_witness :
    authenticateUser demoCfg eqCheck "erin" "pw" 60000
        ⟨[⟨3, "erin", "pw", false, "employee", 5, true, some 0⟩], []⟩ =
        (Except.ok (generateAccessToken demoCfg
           (clearLock ⟨3, "erin", "pw", false, "employee", 5, true, some 0⟩)
           60000,
          generateRefreshToken demoCfg
           (clearLock ⟨3, "erin", "pw", false, "employee", 5, true, some 0⟩)
           60000),
         { users := saveUser
             (clearLock ⟨3, "erin", "pw", false, "employee", 5, true, some 0⟩)
             [⟨3, "erin", "pw", false, "employee", 5, true, some 0⟩],
           sessions := storeRefreshTokenInDb
             (generateRefreshToken demoCfg
               (clearLock ⟨3, "erin", "pw", false, "employee", 5, true,
                  some 0⟩) 60000) 3 60000 [] }) ∧
      ∀ v ∈ saveUser
          (clearLock ⟨3, "erin", "pw", false, "employee", 5, true, some 0⟩)
          [⟨3, "erin", "pw", false, "employee", 5, true, some 0⟩],
        v.id = 3 → v.failedLoginAttempts = 0 ∧ v.accountLocked = false ∧
          v.lastFailedLoginDate = none :=
  lock_expiry_login_succeeds_and_resets demoCfg eqCheck "erin" "pw" 60000 0
    ⟨[⟨3, "erin", "pw", false, "employee", 5, true, some 0⟩], []⟩
    ⟨3, "erin", "pw", false, "employee", 5, true, some 0⟩ rfl rfl rfl
    (by decide) (by decide)

/-- C2: the upsert keyed by userId keeps at most one session row per user:
two sequential successful logins by the same user (in distinct seconds, so
the jwt iat claims differ) return two different refresh tokens, the second
is found in the session store afterwards, the first is not, and a
session store with at most one row for the user still has at most one. -/
theorem single_session_per_user (cfg : TokenConfig)
    (check : String → String → Bool) (username password : String)
    (t1 t2 : Nat) (st : AuthState) (u : User)
    (hfind : findUserByName username st.users = some u)
    (hnl : u.accountLocked = false)
    (hpw : comparePasswords check password u.password = true)
    (hsec : t1 / 1000 ≠ t2 / 1000)
    (hfresh : ∀ s ∈ st.sessions,
      s.refreshToken ≠ generateRefreshToken cfg u t1) :
    ∃ a1 a2 st1 st2,
      authenticateUser cfg check username password t1 st =
          (Except.ok (a1, generateRefreshToken cfg u t1), st1) ∧
        authenticateUser cfg check username password t2 st1 =
          (Except.ok (a2, generateRefreshToken cfg u t2), st2) ∧
        generateRefreshToken cfg u t1 ≠ generateRefreshToken cfg u t2 ∧
        (findSessionByToken (generateRefreshToken cfg u t2)
            st2.sessions).isSome = true ∧
        findSessionByToken (generateRefreshToken cfg u t1) st2.sessions =
          none ∧
        (countSessUser u.id st.sessions ≤ 1 →
          countSessUser u.id st2.sessions ≤ 1) := by
  have hne : generateRefreshToken cfg u t1 ≠ generateRefreshToken cfg u t2 := by
    intro hc
    refine hsec ?_
    have := congrArg SignedToken.iat hc
    simpa [generateRefreshToken] using this
  have h1 := authenticateUser_success_eq cfg check username password t1 st u
    u hfind (lockCheck_not_locked t1 u hnl) hpw
  have hfind1 : findUserByName username (saveUser u st.users) = some u :=
    findUserByName_saveUser username u st.users hfind
  have h2 := authenticateUser_success_eq cfg check username password t2
    ⟨saveUser u st.users,
     storeRefreshTokenInDb (generateRefreshToken cfg u t1) u.id t1
       st.sessions⟩ u u hfind1 (lockCheck_not_locked t2 u hnl) hpw
  refine ⟨generateAccessToken cfg u t1, generateAccessToken cfg u t2,
    ⟨saveUser u st.users,
     storeRefreshTokenInDb (generateRefreshToken cfg u t1) u.id t1
       st.sessions⟩,
    ⟨saveUser u (saveUser u st.users),
     storeRefreshTokenInDb (generateRefreshToken cfg u t2) u.id t2
       (storeRefreshTokenInDb (generateRefreshToken cfg u t1) u.id t1
         st.sessions)⟩,
    h1, h2, hne, ?_, ?_, ?_⟩
  · dsimp only
    rw [storeRefreshTokenInDb_twice]
    exact findSessionByToken_store_self (generateRefreshToken cfg u t2)
      u.id t2 st.sessions
  · dsimp only
    rw [storeRefreshTokenInDb_twice]
    exact findSessionByToken_store_other (generateRefreshToken cfg u t2)
      (generateRefreshToken cfg u t1) u.id t2 st.sessions hne hfresh
  · intro hc
    dsimp only
    rw [storeRefreshTokenInDb_twice]
    exact countSessUser_store_le (generateRefreshToken cfg u t2) u.id t2
      st.sessions hc

/-- Witness for C2: "frank" logs in at times 0 and 1000 (distinct seconds)
starting from an empty session store. -/
theorem single_session_per_user_witness :
    ∃ a1 a2 st1 st2,
      authenticateUser demoCfg eqCheck "frank" "pw" 0
          ⟨[⟨1, "frank", "pw", false, "employee", 0, false, none⟩], []⟩ =
          (Except.ok (a1, generateRefreshToken demoCfg
             ⟨1, "frank", "pw", false, "employee", 0, false, none⟩ 0), st1) ∧
        authenticateUser demoCfg eqCheck "frank" "pw" 1000 st1 =
          (Except.ok (a2, generateRefreshToken demoCfg
             ⟨1, "frank", "pw", false, "employee", 0, false, none⟩ 1000),
           st2) ∧
        generateRefreshToken demoCfg
            ⟨1, "frank", "pw", false, "employee", 0, false, none⟩ 0 ≠
          generateRefreshToken demoCfg
            ⟨1, "frank", "pw", false, "employee", 0, false, none⟩ 1000 ∧
        (findSessionByToken (generateRefreshToken demoCfg
            ⟨1, "frank", "pw", false, "employee", 0, false, none⟩ 1000)
            st2.sessions).isSome = true ∧
        findSessionByToken (generateRefreshToken demoCfg
            ⟨1, "frank", "pw", false, "employee", 0, false, none⟩ 0)
            st2.sessions = none ∧
        (countSessUser 1 ([] : List Session) ≤ 1 →
          countSessUser 1 st2.sessions ≤ 1) :=
  single_session_per_user demoCfg eqCheck "frank" "pw" 0 1000
    ⟨[⟨1, "frank", "pw", false, "employee", 0, false, none⟩], []⟩
    ⟨1, "frank", "pw", false, "employee", 0, false, none⟩ rfl rfl
    (by decide) (by decide) (fun s hs => absurd hs (List.not_mem_nil s))

/-- C3: when the session store holds at most one row per token (the unique
index), any refresh token that refreshAccessToken currently accepts stops
being accepted after a successful resetUserPassword call that used it as
the session cookie: the reset deleted the session row, and refresh
verification requires that row. -/
theorem password_reset_invalidates_refresh (cfg : TokenConfig)
    (hashFn : String → String) (userId : Nat) (rt : SignedToken)
    (pw : String) (st st' : AuthState) (now now2 : Nat) (a : SignedToken)
    (hdup : countSessTok rt st.sessions ≤ 1)
    (hok : refreshAccessToken cfg (some rt) now st = Except.ok a)
    (hreset : resetUserPassword hashFn userId (some rt) pw pw st =
      (Except.ok (), st')) :
    refreshAccessToken cfg (some rt) now2 st' =
      Except.error ⟨ErrKind.internal, ErrMsg.tokenNotFoundInDb⟩ := by
  rcases hfu : findUserById userId st.users with _ | u
  · simp [resetUserPassword, hfu] at hreset
  · simp only [resetUserPassword, hfu, if_true] at hreset
    rcases hup : updatePassword userId (hashFn pw) st.users with e | users'
    · rw [hup] at hreset
      simp at hreset
    · rw [hup] at hreset
      rcases hrm : removeRefreshToken rt st.sessions with e | p
      · rw [hrm] at hreset
        simp at hreset
      · rcases p with ⟨uid0, sessions'⟩
        rw [hrm] at hreset
        have hst : ({ users := users', sessions := sessions' } : AuthState) =
            st' := by
          have := congrArg Prod.snd hreset
          simpa using this
        have hnone : findSessionByToken rt sessions' = none :=
          removeRefreshToken_find_none rt st.sessions sessions' uid0 hrm hdup
        rw [← hst]
        simp [refreshAccessToken, verifyRefreshToken, hnone]

/-- Witness for C3: "bob" holds a live session; his token refreshes
successfully before the reset and is rejected after it. -/
theorem password_reset_invalidates_refresh_witness :
    refreshAccessToken demoCfg (some demoTok) 7
        ⟨[⟨1, "bob", "newpw#h", true, "employee", 0, false, none⟩], []⟩ =
      Except.error ⟨ErrKind.internal, ErrMsg.tokenNotFoundInDb⟩ :=
  password_reset_invalidates_refresh demoCfg demoHash 1 demoTok "newpw"
    c9St ⟨[⟨1, "bob", "newpw#h", true, "employee", 0, false, none⟩], []⟩ 0 7
    ⟨⟨1, "bob", false, "employee"⟩, Secret.access, 0, 900⟩ (by decide)
    (by decide) (by decide)

end FreightServer
